import Mathlib

/-!
# Verification of `fetch_images.py`

A shallow embedding of the image-fetching pipeline of `fetch_images.py`:
the header validators, the filename derivation, the staging/commit logic of
`fetch_and_save_image`, and the hash-store seeding loop of `main`.

File contents are modelled as `List Nat` (byte sequences).  The on-disk
state is an association list from path strings to contents plus a set of
directory paths; the `os` primitives (`open(..., "wb")`, `os.remove`,
`os.rename`) are modelled as `Except`-valued operations that raise (return
`.error`) exactly where the Python ones do.  The two cryptographic digests
(`hashlib.sha256`, `hashlib.md5`) are external primitives and are passed in
as function parameters `sha`/`md5hex`; theorems that need concrete digests
instantiate them with concrete injective-on-the-inputs test functions.
-/

set_option autoImplicit false

namespace FetchImages

/-- Python `requests` exceptions, restricted to the classes named in the
`except` chain of `fetch_and_save_image` plus the OS-level errors that file
operations can raise.  `connectTimeout` models
`requests.exceptions.ConnectTimeout`, which in the real hierarchy is a
subclass of both `ConnectionError` and `Timeout`; `readTimeout` models a
plain `Timeout` that is not a `ConnectionError`. -/
inductive PyExc where
  | httpError (status : Nat)
  | connectionError
  | connectTimeout
  | readTimeout
  | otherRequestException
  | osError (msg : String)
  | otherError (msg : String)
  deriving Repr, DecidableEq

/-- `isinstance(e, requests.exceptions.HTTPError)`. -/
def PyExc.is_HTTPError : PyExc → Bool
  | .httpError _ => true
  | _ => false

/-- `isinstance(e, requests.exceptions.ConnectionError)`: `ConnectTimeout`
is a subclass of `ConnectionError` in `requests`. -/
def PyExc.is_ConnectionError : PyExc → Bool
  | .connectionError => true
  | .connectTimeout => true
  | _ => false

/-- `isinstance(e, requests.exceptions.Timeout)`: both `ConnectTimeout`
and `ReadTimeout` are subclasses of `Timeout`. -/
def PyExc.is_Timeout : PyExc → Bool
  | .connectTimeout => true
  | .readTimeout => true
  | _ => false

/-- `isinstance(e, requests.exceptions.RequestException)`: every
`requests` exception class is a subclass of `RequestException`;
OS-level errors and other exceptions are not. -/
def PyExc.is_RequestException : PyExc → Bool
  | .osError _ => false
  | .otherError _ => false
  | _ => true

/-- The text interpolated for `{e}` in the error f-strings. -/
def PyExc.message : PyExc → String
  | .httpError s => toString s
  | .osError m => m
  | .otherError m => m
  | _ => ""

/-- The data of a completed `requests.get` response: HTTP status, the two
headers the program reads (`requests` headers are case-insensitive, so they
are modelled as optional fields), and the body bytes. -/
structure Response where
  status : Nat
  contentType : Option String
  contentLength : Option String
  content : List Nat
  deriving Repr, DecidableEq

/-- One per-URL result of `fetch_and_save_image`, one constructor per
`return` statement of the Python function, carrying the data interpolated
into the corresponding message string. -/
inductive Outcome where
  | success (filename filepath : String)
  | duplicateSkipped
  | invalidContentType (ct : Option String)
  | tooLarge (len : Option String)
  | httpError (status : Nat)
  | connectionError
  | timeoutError
  | networkError (msg : String)
  | unexpectedError (msg : String)
  deriving Repr, DecidableEq

/-- The `except` chain of `fetch_and_save_image` (lines 80-89): handlers
are tried in source order, and an exception is caught by the first handler
whose class it is an instance of. -/
def classify_exception (e : PyExc) : Outcome :=
  match e with
  | .httpError s => Outcome.httpError s
  | _ =>
    if e.is_ConnectionError then Outcome.connectionError
    else if e.is_Timeout then Outcome.timeoutError
    else if e.is_RequestException then Outcome.networkError e.message
    else Outcome.unexpectedError e.message

/-- Python `str.lower()` (ASCII reading, enough for MIME type strings). -/
def py_lower (s : String) : String :=
  String.mk (s.toList.map Char.toLower)

/-- Python `str.strip()` (ASCII whitespace). -/
def py_strip (s : String) : String :=
  String.mk (((s.toList.dropWhile Char.isWhitespace).reverse.dropWhile
    Char.isWhitespace).reverse)

/-- The allow-list of `validate_image_image_content_type`. -/
def valid_types : List String :=
  ["image/jpeg", "image/png", "image/gif", "image/webp", "image/bmp"]

/-- `validate_image_image_content_type` (lines 10-14): the lower-cased
`Content-Type` header (empty string when absent) must be exactly one of the
five allowed MIME types. -/
def validate_image_image_content_type (ct : Option String) : Bool :=
  valid_types.contains (py_lower (ct.getD ""))

/-- Model of Python `int(s)` on strings: surrounding whitespace stripped,
one optional sign, then a nonempty run of decimal digits. -/
def python_int_digits (cs : List Char) : Option Int :=
  if cs ≠ [] ∧ cs.all Char.isDigit then
    some (cs.foldl (fun acc c => acc * 10 + ((c.toNat : Int) - 48)) 0)
  else none

/-- Model of Python `int(s)` for strings (`None` = `ValueError`). -/
def python_int (s : String) : Option Int :=
  match (py_strip s).toList with
  | '-' :: rest => (python_int_digits rest).map (fun n => -n)
  | '+' :: rest => python_int_digits rest
  | cs => python_int_digits cs

/-- `check_content_length` (lines 16-24): `if content_length:` is Python
truthiness, so an absent header or an empty string skips the check and
returns `True`; otherwise `int(...)` is attempted, `ValueError` gives
`False`, and a parsed value is compared against `max_size`
(`10 * 1024 * 1024 = 10485760` bytes by default). -/
def check_content_length (cl : Option String) (max_size : Int := 10485760) : Bool :=
  match cl with
  | none => true
  | some s =>
    if s ≠ "" then
      match python_int s with
      | some n => decide (n ≤ max_size)
      | none => false
    else true

/-- Whether a path string starts with the POSIX separator. -/
def head_is_slash (s : String) : Bool :=
  match s.toList with
  | '/' :: _ => true
  | _ => false

/-- Whether a path string ends with the POSIX separator. -/
def last_is_slash (s : String) : Bool :=
  match s.toList.reverse with
  | '/' :: _ => true
  | _ => false

/-- `os.path.basename` on POSIX: everything after the last `/`. -/
def os_path_basename (p : String) : String :=
  String.mk ((p.toList.reverse.takeWhile (fun c => c ≠ '/')).reverse)

/-- `os.path.join a b` on POSIX for the cases used here: an absolute `b`
wins; otherwise a separator is inserted unless `a` already ends in one or
is empty.  In particular `os.path.join "out" "" = "out/"`. -/
def os_path_join (a b : String) : String :=
  if head_is_slash b then b
  else if a = "" ∨ last_is_slash a then a ++ b
  else a ++ "/" ++ b

/-- Modelled fragment of Python's `mimetypes.guess_extension`, restricted
to the five MIME types that can pass validation (the function lower-cases
its argument; values as in current CPython); every other argument gives
`None`. -/
def mimetypes_guess_extension (t : String) : Option String :=
  let t := py_lower t
  if t = "image/jpeg" then some ".jpg"
  else if t = "image/png" then some ".png"
  else if t = "image/gif" then some ".gif"
  else if t = "image/webp" then some ".webp"
  else if t = "image/bmp" then some ".bmp"
  else none

/-- The character filter of line 61: keep alphanumeric characters, `.`,
`_`, and `-` (ASCII reading of `str.isalnum`). -/
def keep_char (c : Char) : Bool :=
  c.isAlphanum || c = '.' || c = '_' || c = '-'

/-- Line 61: `"".join(c for c in filename if c.isalnum() or c in (".", "_", "-"))`. -/
def sanitize_filename (s : String) : String :=
  String.mk (s.toList.filter keep_char)

/-- Lines 54-61 of `fetch_and_save_image`: take the basename of the URL
path; if it is empty or no extension can be guessed from the raw
`Content-Type` header, synthesize
`downloaded_image_{md5(url)[:8]}{ext}` — note Python's f-string renders a
`None` extension as the text `"None"` — and finally sanitize.
`urlPath` stands for `urlparse(url).path` and `md5hex url` for
`hashlib.md5(url.encode()).hexdigest()`. -/
def derive_filename (md5hex : String → String) (url urlPath : String)
    (ct : Option String) : String :=
  let filename := os_path_basename urlPath
  let filename :=
    if filename = "" ∨ (mimetypes_guess_extension (ct.getD "")).isNone then
      let ext := mimetypes_guess_extension (ct.getD "")
      "downloaded_image_" ++ String.mk ((md5hex url).toList.take 8) ++
        (match ext with | some e => e | none => "None")
    else filename
  sanitize_filename filename

end FetchImages

namespace FetchImages

/-! ## Disk model and file operations -/

/-- Association-list update: replace the binding of `k` or append it. -/
def assoc_set (l : List (String × List Nat)) (k : String) (v : List Nat) :
    List (String × List Nat) :=
  match l with
  | [] => [(k, v)]
  | (k', v') :: rest =>
    if k' = k then (k, v) :: rest else (k', v') :: assoc_set rest k v

/-- Association-list lookup. -/
def assoc_get (l : List (String × List Nat)) (k : String) : Option (List Nat) :=
  match l with
  | [] => none
  | (k', v) :: rest => if k' = k then some v else assoc_get rest k

/-- Association-list deletion. -/
def assoc_del (l : List (String × List Nat)) (k : String) :
    List (String × List Nat) :=
  l.filter (fun p => p.1 ≠ k)

/-- The filesystem state seen by one pipeline call: the regular files (path
to contents) and the directories. -/
structure Disk where
  dirs : List String
  files : List (String × List Nat)
  deriving Repr, DecidableEq

/-- Whether path string `p` refers to a directory of `d` (either exactly or
with a single trailing separator, as in `"out/"` for directory `"out"`). -/
def Disk.refers_to_dir (d : Disk) (p : String) : Bool :=
  d.dirs.contains p ||
    (last_is_slash p && d.dirs.contains (String.mk p.toList.dropLast))

/-- `open(path, "wb"); f.write(content)`: creates or truncates the file;
raises `IsADirectoryError` when the path refers to a directory. -/
def write_file (d : Disk) (p : String) (c : List Nat) : Except PyExc Disk :=
  if d.refers_to_dir p then .error (.osError "IsADirectoryError")
  else .ok { d with files := assoc_set d.files p c }

/-- `calculate_file_hash` (lines 26-32): streams the file at `p` through
SHA-256 (`sha` is the digest primitive); raises when the file is absent. -/
def calculate_file_hash (sha : List Nat → String) (d : Disk) (p : String) :
    Except PyExc String :=
  match assoc_get d.files p with
  | some c => .ok (sha c)
  | none => .error (.osError "FileNotFoundError")

/-- `os.remove p`: raises when the file is absent. -/
def os_remove (d : Disk) (p : String) : Except PyExc Disk :=
  match assoc_get d.files p with
  | some _ => .ok { d with files := assoc_del d.files p }
  | none => .error (.osError "FileNotFoundError")

/-- `os.rename src dst` (POSIX): atomically replaces any regular file at
`dst`; raises when `src` is absent or `dst` refers to a directory. -/
def os_rename (d : Disk) (src dst : String) : Except PyExc Disk :=
  if d.refers_to_dir dst then .error (.osError "IsADirectoryError")
  else
    match assoc_get d.files src with
    | some c => .ok { d with files := assoc_set (assoc_del d.files src) dst c }
    | none => .error (.osError "FileNotFoundError")

/-- Python-set membership for the hash store (a `set` of digest strings),
modelled as a duplicate-free list: `add` is a no-op on members. -/
def set_add (hs : List String) (h : String) : List String :=
  if h ∈ hs then hs else hs ++ [h]

end FetchImages

namespace FetchImages

/-! ## The per-URL pipeline and the startup seeding loop -/

/-- The result of one `fetch_and_save_image` call: the outcome (the string
the Python function returns, abstracted to its tag and data), and the disk
and hash store after the call. -/
structure PipeResult where
  outcome : Outcome
  disk : Disk
  hashes : List String
  deriving Repr, DecidableEq

/-- `fetch_and_save_image` (lines 39-89).  `net` is the result of
`requests.get(url, timeout=10, headers=...)`: either a response or a raised
transport exception.  `raise_for_status` raises `HTTPError` exactly for
statuses in `[400, 600)`.  Every raise point is routed through
`classify_exception` together with the disk state at that point, mirroring
the outer `try`/`except` chain (side effects before a raise persist). -/
def fetch_and_save_image (sha : List Nat → String) (md5hex : String → String)
    (url urlPath : String)
    (output_dir : String) (net : Except PyExc Response) (d0 : Disk)
    (existing_hashes : List String) : PipeResult :=
  match net with
  | .error e => ⟨classify_exception e, d0, existing_hashes⟩
  | .ok resp =>
    if 400 ≤ resp.status ∧ resp.status < 600 then
      ⟨classify_exception (.httpError resp.status), d0, existing_hashes⟩
    else if ¬ validate_image_image_content_type resp.contentType then
      ⟨.invalidContentType resp.contentType, d0, existing_hashes⟩
    else if ¬ check_content_length resp.contentLength then
      ⟨.tooLarge resp.contentLength, d0, existing_hashes⟩
    else
      let filename := derive_filename md5hex url urlPath resp.contentType
      let filepath := os_path_join output_dir filename
      let temp_filepath := filepath ++ ".tmp"
      match write_file d0 temp_filepath resp.content with
      | .error e => ⟨classify_exception e, d0, existing_hashes⟩
      | .ok d1 =>
        match calculate_file_hash sha d1 temp_filepath with
        | .error e => ⟨classify_exception e, d1, existing_hashes⟩
        | .ok file_hash =>
          if file_hash ∈ existing_hashes then
            match os_remove d1 temp_filepath with
            | .error e => ⟨classify_exception e, d1, existing_hashes⟩
            | .ok d2 => ⟨.duplicateSkipped, d2, existing_hashes⟩
          else
            match os_rename d1 temp_filepath filepath with
            | .error e => ⟨classify_exception e, d1, existing_hashes⟩
            | .ok d2 => ⟨.success filename filepath, d2, set_add existing_hashes file_hash⟩

/-- `pathlib.PurePath.suffix`: the part of the name from its last dot,
provided that dot is neither the first nor the last character. -/
def rfind_dot (cs : List Char) : Option Nat :=
  match cs with
  | [] => none
  | c :: rest =>
    match rfind_dot rest with
    | some i => some (i + 1)
    | none => if c = '.' then some 0 else none

/-- `Path(name).suffix` for a plain file name. -/
def path_suffix (name : String) : String :=
  let cs := name.toList
  match rfind_dot cs with
  | some i => if 0 < i ∧ i < cs.length - 1 then String.mk (cs.drop i) else ""
  | none => ""

/-- The suffix set of the seeding loop in `main` (line 103). -/
def scan_extensions : List String := [".jpg", ".png", ".gif", ".bmp", ".webp"]

/-- One entry of `Path(output_dir).glob("*")`: its name, whether it is a
regular file, whether opening it for reading succeeds, and its bytes. -/
structure DirEntry where
  name : String
  is_file : Bool
  readable : Bool
  content : List Nat
  deriving Repr, DecidableEq

/-- The seeding loop of `main` (lines 101-104): for each directory entry
that is a regular file with a matching suffix, `calculate_file_hash` is
called and its digest added to the set; a file that fails to read raises,
and nothing in `main` catches it, so the error propagates. -/
def seed_existing_hashes (sha : List Nat → String) :
    List DirEntry → List String → Except PyExc (List String)
  | [], acc => .ok acc
  | e :: rest, acc =>
    if e.is_file ∧ path_suffix e.name ∈ scan_extensions then
      if e.readable then
        seed_existing_hashes sha rest (set_add acc (sha e.content))
      else .error (.osError "PermissionError")
    else seed_existing_hashes sha rest acc

/-- A concrete stand-in digest for tests: the printed byte list.  It is
injective, as a real digest is collision-free in practice. -/
def test_sha (b : List Nat) : String := toString b

/-- A concrete stand-in URL digest for tests (a fixed hex-like string, as a
real MD5 hex digest is alphanumeric). -/
def test_md5 (_s : String) : String := "0a1b2c3d4e5f"

/-- The final path of one pipeline call (line 62):
`os.path.join(output_dir, filename)` for the sanitized filename. -/
def final_path (md5hex : String → String) (url urlPath output_dir : String)
    (ct : Option String) : String :=
  os_path_join output_dir (derive_filename md5hex url urlPath ct)

/-- The staging path of one pipeline call (line 65): `filepath + ".tmp"`. -/
def staged_path (md5hex : String → String) (url urlPath output_dir : String)
    (ct : Option String) : String :=
  final_path md5hex url urlPath output_dir ct ++ ".tmp"

/-- Whether an `Outcome` is the `Success` kind. -/
def Outcome.is_success : Outcome → Bool
  | .success _ _ => true
  | _ => false

/-- The size check as §4.1 of the specification words it (this definition
follows the spec, not the code, for comparison): with a declared length
present, true iff it parses as a non-negative integer that is at most
`max`; parse failure means false; an absent length means true. -/
def spec_isWithinSizeLimit (cl : Option String) (max : Int) : Bool :=
  match cl with
  | none => true
  | some s =>
    match python_int s with
    | some n => decide (0 ≤ n ∧ n ≤ max)
    | none => false

end FetchImages

namespace FetchImages

/-! ## Basic lemmas about the disk and store primitives -/

theorem assoc_get_set_self (l : List (String × List Nat)) (k : String)
    (v : List Nat) : assoc_get (assoc_set l k v) k = some v := by
  induction l with
  | nil => simp [assoc_set, assoc_get]
  | cons p rest ih =>
    obtain ⟨k', v'⟩ := p
    by_cases h : k' = k
    · simp [assoc_set, assoc_get, h]
    · simp [assoc_set, assoc_get, h, ih]

theorem assoc_get_set_ne (l : List (String × List Nat)) (k k' : String)
    (v : List Nat) (h : k' ≠ k) :
    assoc_get (assoc_set l k v) k' = assoc_get l k' := by
  induction l with
  | nil => simp [assoc_set, assoc_get, Ne.symm h]
  | cons p rest ih =>
    obtain ⟨a, b⟩ := p
    by_cases ha : a = k
    · subst ha
      simp [assoc_set, assoc_get, Ne.symm h]
    · simp [assoc_set, assoc_get, ha, ih]

theorem assoc_get_del_self (l : List (String × List Nat)) (k : String) :
    assoc_get (assoc_del l k) k = none := by
  induction l with
  | nil => simp [assoc_del, assoc_get]
  | cons p rest ih =>
    obtain ⟨a, b⟩ := p
    simp only [assoc_del, List.filter_cons] at ih ⊢
    by_cases ha : a = k
    · simpa [ha] using ih
    · simpa [ha, assoc_get] using ih

theorem assoc_get_del_ne (l : List (String × List Nat)) (k k' : String)
    (h : k' ≠ k) : assoc_get (assoc_del l k) k' = assoc_get l k' := by
  induction l with
  | nil => simp [assoc_del]
  | cons p rest ih =>
    obtain ⟨a, b⟩ := p
    simp only [assoc_del, List.filter_cons] at ih ⊢
    by_cases ha : a = k
    · subst ha
      simpa [assoc_get, Ne.symm h] using ih
    · simp only [ne_eq, decide_not] at ih ⊢
      simp [assoc_get, ha, ih]

theorem mem_set_add (hs : List String) (x h : String) :
    h ∈ set_add hs x ↔ h ∈ hs ∨ h = x := by
  by_cases hx : x ∈ hs
  · constructor
    · intro hm
      exact Or.inl (by simpa [set_add, hx] using hm)
    · rintro (hm | rfl)
      · simpa [set_add, hx]
      · simpa [set_add, hx]
  · simp [set_add, hx]

theorem append_tmp_ne (s : String) : s ++ ".tmp" ≠ s := by
  intro h
  have hlen := congrArg String.length h
  simp [String.length_append] at hlen
  exact absurd hlen (by decide)

end FetchImages


namespace FetchImages

/-! ## Characterization of the control paths of `fetch_and_save_image` -/

theorem run_net_error (sha : List Nat → String) (md5 : String → String)
    (url up dir : String) (e : PyExc) (d : Disk) (hs : List String) :
    fetch_and_save_image sha md5 url up dir (.error e) d hs =
      ⟨classify_exception e, d, hs⟩ := rfl

theorem run_http (sha : List Nat → String) (md5 : String → String)
    (url up dir : String) (r : Response) (d : Disk) (hs : List String)
    (hst : 400 ≤ r.status ∧ r.status < 600) :
    fetch_and_save_image sha md5 url up dir (.ok r) d hs =
      ⟨.httpError r.status, d, hs⟩ := by
  simp [fetch_and_save_image, classify_exception, hst]

theorem run_invalid_ct (sha : List Nat → String) (md5 : String → String)
    (url up dir : String) (r : Response) (d : Disk) (hs : List String)
    (hst : ¬(400 ≤ r.status ∧ r.status < 600))
    (hct : validate_image_image_content_type r.contentType = false) :
    fetch_and_save_image sha md5 url up dir (.ok r) d hs =
      ⟨.invalidContentType r.contentType, d, hs⟩ := by
  simp [fetch_and_save_image, hst, hct]

theorem run_too_large (sha : List Nat → String) (md5 : String → String)
    (url up dir : String) (r : Response) (d : Disk) (hs : List String)
    (hst : ¬(400 ≤ r.status ∧ r.status < 600))
    (hct : validate_image_image_content_type r.contentType = true)
    (hlen : check_content_length r.contentLength = false) :
    fetch_and_save_image sha md5 url up dir (.ok r) d hs =
      ⟨.tooLarge r.contentLength, d, hs⟩ := by
  simp [fetch_and_save_image, hst, hct, hlen]

theorem run_write_error (sha : List Nat → String) (md5 : String → String)
    (url up dir : String) (r : Response) (d : Disk) (hs : List String)
    (hst : ¬(400 ≤ r.status ∧ r.status < 600))
    (hct : validate_image_image_content_type r.contentType = true)
    (hlen : check_content_length r.contentLength = true)
    (hw : d.refers_to_dir
      (os_path_join dir (derive_filename md5 url up r.contentType) ++ ".tmp") = true) :
    fetch_and_save_image sha md5 url up dir (.ok r) d hs =
      ⟨.unexpectedError "IsADirectoryError", d, hs⟩ := by
  simp [fetch_and_save_image, hst, hct, hlen, write_file, hw, classify_exception,
    PyExc.is_ConnectionError, PyExc.is_Timeout, PyExc.is_RequestException,
    PyExc.message]

theorem run_duplicate (sha : List Nat → String) (md5 : String → String)
    (url up dir : String) (r : Response) (d : Disk) (hs : List String)
    (hst : ¬(400 ≤ r.status ∧ r.status < 600))
    (hct : validate_image_image_content_type r.contentType = true)
    (hlen : check_content_length r.contentLength = true)
    (hw : d.refers_to_dir
      (os_path_join dir (derive_filename md5 url up r.contentType) ++ ".tmp") = false)
    (hdup : sha r.content ∈ hs) :
    fetch_and_save_image sha md5 url up dir (.ok r) d hs =
      ⟨.duplicateSkipped,
        Disk.mk d.dirs
          (assoc_del
            (assoc_set d.files
              (os_path_join dir (derive_filename md5 url up r.contentType) ++ ".tmp")
              r.content)
            (os_path_join dir (derive_filename md5 url up r.contentType) ++ ".tmp")),
        hs⟩ := by
  simp [fetch_and_save_image, hst, hct, hlen, write_file, hw, calculate_file_hash,
    assoc_get_set_self, hdup, os_remove]

/-- `Disk.refers_to_dir` only reads the directory set, so replacing the
files leaves it unchanged. -/
theorem refers_to_dir_files_irrel (d : Disk) (fs : List (String × List Nat))
    (p : String) : (Disk.mk d.dirs fs).refers_to_dir p = d.refers_to_dir p := rfl

theorem run_rename_error (sha : List Nat → String) (md5 : String → String)
    (url up dir : String) (r : Response) (d : Disk) (hs : List String)
    (hst : ¬(400 ≤ r.status ∧ r.status < 600))
    (hct : validate_image_image_content_type r.contentType = true)
    (hlen : check_content_length r.contentLength = true)
    (hw : d.refers_to_dir
      (os_path_join dir (derive_filename md5 url up r.contentType) ++ ".tmp") = false)
    (hnew : sha r.content ∉ hs)
    (hrd : d.refers_to_dir
      (os_path_join dir (derive_filename md5 url up r.contentType)) = true) :
    fetch_and_save_image sha md5 url up dir (.ok r) d hs =
      ⟨.unexpectedError "IsADirectoryError",
        Disk.mk d.dirs
          (assoc_set d.files
            (os_path_join dir (derive_filename md5 url up r.contentType) ++ ".tmp")
            r.content),
        hs⟩ := by
  simp [fetch_and_save_image, hst, hct, hlen, write_file, hw, calculate_file_hash,
    assoc_get_set_self, hnew, os_rename, refers_to_dir_files_irrel, hrd,
    classify_exception, PyExc.is_ConnectionError, PyExc.is_Timeout,
    PyExc.is_RequestException, PyExc.message]

theorem run_accept (sha : List Nat → String) (md5 : String → String)
    (url up dir : String) (r : Response) (d : Disk) (hs : List String)
    (hst : ¬(400 ≤ r.status ∧ r.status < 600))
    (hct : validate_image_image_content_type r.contentType = true)
    (hlen : check_content_length r.contentLength = true)
    (hw : d.refers_to_dir
      (os_path_join dir (derive_filename md5 url up r.contentType) ++ ".tmp") = false)
    (hnew : sha r.content ∉ hs)
    (hrd : d.refers_to_dir
      (os_path_join dir (derive_filename md5 url up r.contentType)) = false) :
    fetch_and_save_image sha md5 url up dir (.ok r) d hs =
      ⟨.success (derive_filename md5 url up r.contentType)
          (os_path_join dir (derive_filename md5 url up r.contentType)),
        Disk.mk d.dirs
          (assoc_set
            (assoc_del
              (assoc_set d.files
                (os_path_join dir (derive_filename md5 url up r.contentType) ++ ".tmp")
                r.content)
              (os_path_join dir (derive_filename md5 url up r.contentType) ++ ".tmp"))
            (os_path_join dir (derive_filename md5 url up r.contentType))
            r.content),
        set_add hs (sha r.content)⟩ := by
  simp [fetch_and_save_image, hst, hct, hlen, write_file, hw, calculate_file_hash,
    assoc_get_set_self, hnew, os_rename, refers_to_dir_files_irrel, hrd]

end FetchImages

namespace FetchImages

/-- Exhaustive case analysis of one call on a completed response: exactly
one of the seven control paths of `fetch_and_save_image` is taken, with the
conditions that select it and the resulting state. -/
theorem run_ok_cases (sha : List Nat → String) (md5 : String → String)
    (url up dir : String) (r : Response) (d : Disk) (hs : List String) :
    ((400 ≤ r.status ∧ r.status < 600) ∧
      fetch_and_save_image sha md5 url up dir (.ok r) d hs =
        ⟨.httpError r.status, d, hs⟩) ∨
    (validate_image_image_content_type r.contentType = false ∧
      fetch_and_save_image sha md5 url up dir (.ok r) d hs =
        ⟨.invalidContentType r.contentType, d, hs⟩) ∨
    (check_content_length r.contentLength = false ∧
      fetch_and_save_image sha md5 url up dir (.ok r) d hs =
        ⟨.tooLarge r.contentLength, d, hs⟩) ∨
    (¬(400 ≤ r.status ∧ r.status < 600) ∧
      validate_image_image_content_type r.contentType = true ∧
      check_content_length r.contentLength = true ∧
      d.refers_to_dir (staged_path md5 url up dir r.contentType) = true ∧
      fetch_and_save_image sha md5 url up dir (.ok r) d hs =
        ⟨.unexpectedError "IsADirectoryError", d, hs⟩) ∨
    (¬(400 ≤ r.status ∧ r.status < 600) ∧
      validate_image_image_content_type r.contentType = true ∧
      check_content_length r.contentLength = true ∧
      d.refers_to_dir (staged_path md5 url up dir r.contentType) = false ∧
      sha r.content ∈ hs ∧
      fetch_and_save_image sha md5 url up dir (.ok r) d hs =
        ⟨.duplicateSkipped,
          Disk.mk d.dirs
            (assoc_del
              (assoc_set d.files (staged_path md5 url up dir r.contentType) r.content)
              (staged_path md5 url up dir r.contentType)),
          hs⟩) ∨
    (¬(400 ≤ r.status ∧ r.status < 600) ∧
      validate_image_image_content_type r.contentType = true ∧
      check_content_length r.contentLength = true ∧
      d.refers_to_dir (staged_path md5 url up dir r.contentType) = false ∧
      sha r.content ∉ hs ∧
      d.refers_to_dir (final_path md5 url up dir r.contentType) = true ∧
      fetch_and_save_image sha md5 url up dir (.ok r) d hs =
        ⟨.unexpectedError "IsADirectoryError",
          Disk.mk d.dirs
            (assoc_set d.files (staged_path md5 url up dir r.contentType) r.content),
          hs⟩) ∨
    (¬(400 ≤ r.status ∧ r.status < 600) ∧
      validate_image_image_content_type r.contentType = true ∧
      check_content_length r.contentLength = true ∧
      d.refers_to_dir (staged_path md5 url up dir r.contentType) = false ∧
      sha r.content ∉ hs ∧
      d.refers_to_dir (final_path md5 url up dir r.contentType) = false ∧
      fetch_and_save_image sha md5 url up dir (.ok r) d hs =
        ⟨.success (derive_filename md5 url up r.contentType)
            (final_path md5 url up dir r.contentType),
          Disk.mk d.dirs
            (assoc_set
              (assoc_del
                (assoc_set d.files (staged_path md5 url up dir r.contentType) r.content)
                (staged_path md5 url up dir r.contentType))
              (final_path md5 url up dir r.contentType)
              r.content),
          set_add hs (sha r.content)⟩) := by
  by_cases hst : 400 ≤ r.status ∧ r.status < 600
  · exact Or.inl ⟨hst, run_http sha md5 url up dir r d hs hst⟩
  cases hct : validate_image_image_content_type r.contentType with
  | false =>
    exact Or.inr (Or.inl ⟨rfl, run_invalid_ct sha md5 url up dir r d hs hst hct⟩)
  | true =>
  cases hlen : check_content_length r.contentLength with
  | false =>
    exact Or.inr (Or.inr (Or.inl
      ⟨rfl, run_too_large sha md5 url up dir r d hs hst hct hlen⟩))
  | true =>
  cases hw : d.refers_to_dir (staged_path md5 url up dir r.contentType) with
  | true =>
    exact Or.inr (Or.inr (Or.inr (Or.inl
      ⟨hst, rfl, rfl, rfl, run_write_error sha md5 url up dir r d hs hst hct hlen hw⟩)))
  | false =>
  by_cases hdup : sha r.content ∈ hs
  · exact Or.inr (Or.inr (Or.inr (Or.inr (Or.inl
      ⟨hst, rfl, rfl, rfl, hdup,
        run_duplicate sha md5 url up dir r d hs hst hct hlen hw hdup⟩))))
  cases hrd : d.refers_to_dir (final_path md5 url up dir r.contentType) with
  | true =>
    exact Or.inr (Or.inr (Or.inr (Or.inr (Or.inr (Or.inl
      ⟨hst, rfl, rfl, rfl, hdup, rfl,
        run_rename_error sha md5 url up dir r d hs hst hct hlen hw hdup hrd⟩)))))
  | false =>
    exact Or.inr (Or.inr (Or.inr (Or.inr (Or.inr (Or.inr
      ⟨hst, rfl, rfl, rfl, hdup, rfl,
        run_accept sha md5 url up dir r d hs hst hct hlen hw hdup hrd⟩)))))

end FetchImages

namespace FetchImages

/-! ## Lemmas about filename derivation and seeding -/

theorem toList_mk (l : List Char) : (String.mk l).toList = l := rfl

theorem mk_append (a b : List Char) :
    String.mk a ++ String.mk b = String.mk (a ++ b) := rfl

theorem sanitize_eq_self (s : String) (h : ∀ c ∈ s.toList, keep_char c = true) :
    sanitize_filename s = s := by
  unfold sanitize_filename
  rw [List.filter_eq_self.mpr h]
  rfl

theorem rfind_dot_eq_none (cs : List Char) (h : '.' ∉ cs) : rfind_dot cs = none := by
  induction cs with
  | nil => rfl
  | cons c rest ih =>
    have hc : c ≠ '.' := fun hh => h (hh ▸ List.mem_cons_self c rest)
    simp [rfind_dot, ih (fun hm => h (List.mem_cons_of_mem c hm)), hc]

theorem rfind_dot_append (pre post : List Char) (hpost : '.' ∉ post) :
    rfind_dot (pre ++ '.' :: post) = some pre.length := by
  induction pre with
  | nil => simp [rfind_dot, rfind_dot_eq_none post hpost]
  | cons c rest ih => simp [rfind_dot, ih]

theorem path_suffix_append (pre post : List Char) (hpre : pre ≠ [])
    (hpost : '.' ∉ post) (hpostne : post ≠ []) :
    path_suffix (String.mk (pre ++ '.' :: post)) = String.mk ('.' :: post) := by
  simp only [path_suffix, toList_mk]
  rw [rfind_dot_append pre post hpost]
  have h1 : 0 < pre.length := List.length_pos.mpr hpre
  have h2 : pre.length < (pre ++ '.' :: post).length - 1 := by
    have : 0 < post.length := List.length_pos.mpr hpostne
    simp [List.length_append]
    omega
  simp [h1, h2, List.drop_left]
  intro hcon
  exact absurd hcon hpostne

theorem derive_filename_synth (md5 : String → String) (url up : String)
    (ct : Option String) (e : String)
    (hbase : os_path_basename up = "")
    (hguess : mimetypes_guess_extension (ct.getD "") = some e) :
    derive_filename md5 url up ct =
      sanitize_filename
        ("downloaded_image_" ++ String.mk ((md5 url).toList.take 8) ++ e) := by
  simp [derive_filename, hbase, hguess]

theorem validate_cases (ct : Option String)
    (h : validate_image_image_content_type ct = true) :
    py_lower (ct.getD "") = "image/jpeg" ∨ py_lower (ct.getD "") = "image/png" ∨
    py_lower (ct.getD "") = "image/gif" ∨ py_lower (ct.getD "") = "image/webp" ∨
    py_lower (ct.getD "") = "image/bmp" := by
  simpa [validate_image_image_content_type, valid_types] using h

theorem seed_ok_of_readable (sha : List Nat → String) (entries : List DirEntry)
    (acc : List String)
    (h : ∀ e ∈ entries, e.is_file = true → path_suffix e.name ∈ scan_extensions →
      e.readable = true) :
    ∃ hs, seed_existing_hashes sha entries acc = .ok hs ∧
      (∀ x ∈ acc, x ∈ hs) ∧
      ∀ e ∈ entries, e.is_file = true → path_suffix e.name ∈ scan_extensions →
        sha e.content ∈ hs := by
  induction entries generalizing acc with
  | nil => exact ⟨acc, rfl, fun x hx => hx, by simp⟩
  | cons e rest ih =>
    have htail : ∀ e' ∈ rest, e'.is_file = true →
        path_suffix e'.name ∈ scan_extensions → e'.readable = true :=
      fun e' he' => h e' (List.mem_cons_of_mem e he')
    by_cases hm : e.is_file = true ∧ path_suffix e.name ∈ scan_extensions
    · have hr : e.readable = true := h e (List.mem_cons_self e rest) hm.1 hm.2
      obtain ⟨hs, hseed, hacc, hrest⟩ := ih (set_add acc (sha e.content)) htail
      refine ⟨hs, ?_, ?_, ?_⟩
      · simp [seed_existing_hashes, hm, hr, hseed]
      · exact fun x hx => hacc x ((mem_set_add acc (sha e.content) x).mpr (Or.inl hx))
      · intro e' he' hf hsuf
        rcases List.mem_cons.mp he' with rfl | he'
        · exact hacc _ ((mem_set_add acc (sha e'.content) _).mpr (Or.inr rfl))
        · exact hrest e' he' hf hsuf
    · obtain ⟨hs, hseed, hacc, hrest⟩ := ih acc htail
      refine ⟨hs, ?_, hacc, ?_⟩
      · simp [seed_existing_hashes, hm, hseed]
      · intro e' he' hf hsuf
        rcases List.mem_cons.mp he' with rfl | he'
        · exact absurd ⟨hf, hsuf⟩ hm
        · exact hrest e' he' hf hsuf

end FetchImages

namespace FetchImages

theorem sanitize_synth (md5 : String → String) (url up : String)
    (ct : Option String) (e : String)
    (hbase : os_path_basename up = "")
    (hguess : mimetypes_guess_extension (ct.getD "") = some e)
    (he : e ∈ scan_extensions)
    (hmd5 : ∀ c ∈ (md5 url).toList.take 8, c.isAlphanum = true) :
    derive_filename md5 url up ct =
      "downloaded_image_" ++ String.mk ((md5 url).toList.take 8) ++ e := by
  rw [derive_filename_synth md5 url up ct e hbase hguess]
  apply sanitize_eq_self
  intro c hcmem
  have hcmem' : c ∈ ("downloaded_image_".toList ++ (md5 url).toList.take 8)
      ++ e.toList := hcmem
  rcases List.mem_append.mp hcmem' with h1 | h2
  · rcases List.mem_append.mp h1 with ha | hb
    · exact (by decide : ∀ x ∈ "downloaded_image_".toList, keep_char x = true) c ha
    · simp [keep_char, hmd5 c hb]
  · rcases (by simpa [scan_extensions] using he :
        e = ".jpg" ∨ e = ".png" ∨ e = ".gif" ∨ e = ".bmp" ∨ e = ".webp") with
      rfl | rfl | rfl | rfl | rfl
    · exact (by decide : ∀ x ∈ (".jpg" : String).toList, keep_char x = true) c h2
    · exact (by decide : ∀ x ∈ (".png" : String).toList, keep_char x = true) c h2
    · exact (by decide : ∀ x ∈ (".gif" : String).toList, keep_char x = true) c h2
    · exact (by decide : ∀ x ∈ (".bmp" : String).toList, keep_char x = true) c h2
    · exact (by decide : ∀ x ∈ (".webp" : String).toList, keep_char x = true) c h2

theorem path_suffix_synth (m8 : List Char)
    (hm8 : ∀ c ∈ m8, c.isAlphanum = true)
    (e : String) (he : e ∈ scan_extensions) :
    path_suffix ("downloaded_image_" ++ String.mk m8 ++ e) = e := by
  have hdot : '.' ∉ m8 := by
    intro hm
    have := hm8 '.' hm
    simp at this
  have hpre : "downloaded_image_".toList ++ m8 ≠ [] := by simp
  rcases (by simpa [scan_extensions] using he :
      e = ".jpg" ∨ e = ".png" ∨ e = ".gif" ∨ e = ".bmp" ∨ e = ".webp") with
    rfl | rfl | rfl | rfl | rfl
  · exact path_suffix_append ("downloaded_image_".toList ++ m8) ['j', 'p', 'g']
      hpre (by decide) (by decide)
  · exact path_suffix_append ("downloaded_image_".toList ++ m8) ['p', 'n', 'g']
      hpre (by decide) (by decide)
  · exact path_suffix_append ("downloaded_image_".toList ++ m8) ['g', 'i', 'f']
      hpre (by decide) (by decide)
  · exact path_suffix_append ("downloaded_image_".toList ++ m8) ['b', 'm', 'p']
      hpre (by decide) (by decide)
  · exact path_suffix_append ("downloaded_image_".toList ++ m8) ['w', 'e', 'b', 'p']
      hpre (by decide) (by decide)

end FetchImages

namespace FetchImages

/-! ## Claim theorems -/

/-- C3: every fetch failure is classified into exactly one outcome kind by
specificity through the ordered handler chain: an HTTP error status yields
`HttpError`; a connection failure yields `ConnectionError` (this precedes
the timeout handler, so a connect-timeout, which is both, is reported as
`ConnectionError`, not `NetworkError`); a timeout that is not a connection
failure yields `TimeoutError`; any other transport failure
(`RequestException`) yields `NetworkError`; anything else yields
`UnexpectedError`.  A timeout is never reported as `NetworkError`, and a
response bearing an HTTP error status is reported as `HttpError` before any
connection diagnostics. -/
theorem C3_error_classification :
    (∀ e : PyExc, e.is_HTTPError = true →
      ∃ s, classify_exception e = Outcome.httpError s) ∧
    (∀ e : PyExc, e.is_ConnectionError = true →
      classify_exception e = Outcome.connectionError) ∧
    (∀ e : PyExc, e.is_Timeout = true → e.is_ConnectionError = false →
      classify_exception e = Outcome.timeoutError) ∧
    (∀ e : PyExc, e.is_RequestException = true → e.is_HTTPError = false →
      e.is_ConnectionError = false → e.is_Timeout = false →
      ∃ m, classify_exception e = Outcome.networkError m) ∧
    (∀ e : PyExc, e.is_RequestException = false →
      ∃ m, classify_exception e = Outcome.unexpectedError m) ∧
    (∀ (e : PyExc) (m : String), e.is_Timeout = true →
      classify_exception e ≠ Outcome.networkError m) ∧
    (∀ (sha : List Nat → String) (md5 : String → String)
      (url up dir : String) (r : Response) (d : Disk) (hs : List String),
      400 ≤ r.status → r.status < 600 →
      (fetch_and_save_image sha md5 url up dir (.ok r) d hs).outcome =
        Outcome.httpError r.status) := by
  refine ⟨?_, ?_, ?_, ?_, ?_, ?_, ?_⟩
  · intro e h
    cases e <;> simp_all [classify_exception, PyExc.is_HTTPError]
  · intro e h
    cases e <;> simp_all [classify_exception, PyExc.is_ConnectionError,
      PyExc.is_Timeout, PyExc.is_RequestException]
  · intro e h1 h2
    cases e <;> simp_all [classify_exception, PyExc.is_ConnectionError,
      PyExc.is_Timeout, PyExc.is_RequestException]
  · intro e h1 h2 h3 h4
    cases e <;> simp_all [classify_exception, PyExc.is_HTTPError,
      PyExc.is_ConnectionError, PyExc.is_Timeout, PyExc.is_RequestException,
      PyExc.message]
  · intro e h
    cases e <;> simp_all [classify_exception, PyExc.is_HTTPError,
      PyExc.is_ConnectionError, PyExc.is_Timeout, PyExc.is_RequestException,
      PyExc.message]
  · intro e m h
    cases e <;> simp_all [classify_exception, PyExc.is_ConnectionError,
      PyExc.is_Timeout, PyExc.is_RequestException]
  · intro sha md5 url up dir r d hs h1 h2
    rw [run_http sha md5 url up dir r d hs ⟨h1, h2⟩]

/-- C3 witness: a read timeout is reported as `TimeoutError`, a
connect-timeout as `ConnectionError`, and a 404 response as
`HttpError 404`. -/
theorem C3_witness :
    classify_exception PyExc.readTimeout = Outcome.timeoutError ∧
    classify_exception PyExc.connectTimeout = Outcome.connectionError ∧
    (fetch_and_save_image test_sha test_md5 "u" "/p" "out"
      (.ok ⟨404, some "text/html", none, []⟩) ⟨[], []⟩ []).outcome =
      Outcome.httpError 404 :=
  ⟨C3_error_classification.2.2.1 PyExc.readTimeout rfl rfl,
   C3_error_classification.2.1 PyExc.connectTimeout rfl,
   C3_error_classification.2.2.2.2.2.2 test_sha test_md5 "u" "/p" "out"
     ⟨404, some "text/html", none, []⟩ ⟨[], []⟩ [] (by decide) (by decide)⟩

/-- C6 counterexample: a declared length of `"-1"` is present and does not
parse as a non-negative integer, so the claim requires `false`, but
`check_content_length` returns `true` (the code never checks the sign:
`int("-1") <= max` holds). -/
theorem C6_counterexample :
    check_content_length (some "-1") = true ∧
    spec_isWithinSizeLimit (some "-1") 10485760 = false :=
  ⟨rfl, rfl⟩

/-- C6 amended: the size check returns true iff the declared length is
absent, or the empty string, or parses as an integer (possibly negative)
that is at most the limit; a present nonempty value that fails to parse
yields false. -/
theorem C6_amended_size_check (cl : Option String) (m : Int) :
    check_content_length cl m = true ↔
      (cl = none ∨ cl = some "" ∨
        ∃ s n, cl = some s ∧ python_int s = some n ∧ n ≤ m) := by
  cases cl with
  | none => simp [check_content_length]
  | some s =>
    by_cases hs : s = ""
    · subst hs
      simp [check_content_length]
    · cases hp : python_int s with
      | none => simp [check_content_length, hs, hp]
      | some n => simp [check_content_length, hs, hp]

/-- C6 witness: `"42"` parses and is within the limit, so the check
accepts it. -/
theorem C6_witness : check_content_length (some "42") = true :=
  (C6_amended_size_check (some "42") 10485760).mpr
    (Or.inr (Or.inr ⟨"42", 42, rfl, by decide, by decide⟩))

/-- C7: whenever the pipeline derives a filename (so the content type has
passed validation) and the URL path's final segment is empty or no
extension can be guessed, the derived filename is exactly
`downloaded_image_` followed by the first 8 characters of the MD5 hex
digest of the URL, followed by the guessed extension when one exists and
the empty string otherwise (for all validated content types an extension
exists, so the empty-extension case is vacuous). -/
theorem C7_synthesized_filename (md5 : String → String) (url up : String)
    (ct : Option String)
    (hval : validate_image_image_content_type ct = true)
    (hmd5 : ∀ c ∈ (md5 url).toList.take 8, c.isAlphanum = true)
    (hcond : os_path_basename up = "" ∨
      (mimetypes_guess_extension (ct.getD "")).isNone = true) :
    derive_filename md5 url up ct =
      "downloaded_image_" ++ String.mk ((md5 url).toList.take 8) ++
        (mimetypes_guess_extension (ct.getD "")).getD "" := by
  have step : ∀ e : String, e ∈ scan_extensions →
      mimetypes_guess_extension (ct.getD "") = some e →
      derive_filename md5 url up ct =
        "downloaded_image_" ++ String.mk ((md5 url).toList.take 8) ++
          (mimetypes_guess_extension (ct.getD "")).getD "" := by
    intro e he hguess
    have hbase : os_path_basename up = "" := by
      rcases hcond with hb | hn
      · exact hb
      · rw [hguess] at hn
        simp at hn
    rw [hguess]
    exact sanitize_synth md5 url up ct e hbase hguess he hmd5
  rcases validate_cases ct hval with hc | hc | hc | hc | hc
  · exact step ".jpg" (by decide) (by simp [mimetypes_guess_extension, hc])
  · exact step ".png" (by decide) (by simp [mimetypes_guess_extension, hc])
  · exact step ".gif" (by decide) (by simp [mimetypes_guess_extension, hc])
  · exact step ".webp" (by decide) (by simp [mimetypes_guess_extension, hc])
  · exact step ".bmp" (by decide) (by simp [mimetypes_guess_extension, hc])

/-- C7 witness: the spec's own example — an empty final path segment with
content type `image/png`. -/
theorem C7_witness :
    derive_filename test_md5 "https://example.com/" "/" (some "image/png") =
      "downloaded_image_0a1b2c3d.png" := by
  rw [C7_synthesized_filename test_md5 "https://example.com/" "/"
    (some "image/png") (by decide) (by decide) (Or.inl (by decide))]
  rfl

/-- C8: a call whose outcome is not `Success` returns the hash store it was
given: fingerprints are recorded only on the accept path. -/
theorem C8_store_unchanged (sha : List Nat → String) (md5 : String → String)
    (url up dir : String) (net : Except PyExc Response) (d : Disk)
    (hs : List String)
    (h : (fetch_and_save_image sha md5 url up dir net d hs).outcome.is_success =
      false) :
    (fetch_and_save_image sha md5 url up dir net d hs).hashes = hs := by
  cases net with
  | error e => rfl
  | ok r =>
    rcases run_ok_cases sha md5 url up dir r d hs with
      ⟨_, hA⟩ | ⟨_, hA⟩ | ⟨_, hA⟩ | ⟨_, _, _, _, hA⟩ | ⟨_, _, _, _, _, hA⟩ |
      ⟨_, _, _, _, _, _, hA⟩ | ⟨_, _, _, _, _, _, hA⟩
    · rw [hA]
    · rw [hA]
    · rw [hA]
    · rw [hA]
    · rw [hA]
    · rw [hA]
    · rw [hA] at h
      simp [Outcome.is_success] at h

/-- C8 witness: a rejected content type leaves the store untouched. -/
theorem C8_witness :
    (fetch_and_save_image test_sha test_md5 "u" "/p" "out"
      (.ok ⟨200, some "text/html", none, []⟩) ⟨[], []⟩ ["x"]).hashes = ["x"] :=
  C8_store_unchanged test_sha test_md5 "u" "/p" "out"
    (.ok ⟨200, some "text/html", none, []⟩) ⟨[], []⟩ ["x"] (by decide)

end FetchImages

namespace FetchImages

/-- C9 counterexample: during hash-store initialization an unreadable
matching file (`a.png`) makes `calculate_file_hash` raise; nothing in
`main` catches it, so initialization aborts with the error instead of
completing with the fingerprints of the readable files (here `b.png`). -/
theorem C9_counterexample :
    path_suffix "a.png" ∈ scan_extensions ∧
    seed_existing_hashes test_sha
      [⟨"a.png", true, false, [1]⟩, ⟨"b.png", true, true, [6]⟩] [] =
      .error (.osError "PermissionError") :=
  ⟨by decide, rfl⟩

/-- C9 amended: initialization completes only when every matching file is
readable; in that case the resulting store contains the fingerprint of
every matching file.  (An unreadable matching file aborts startup: the
read error propagates out of the seeding loop uncaught.) -/
theorem C9_amended_seed (sha : List Nat → String) (entries : List DirEntry)
    (h : ∀ e ∈ entries, e.is_file = true → path_suffix e.name ∈ scan_extensions →
      e.readable = true) :
    ∃ hs, seed_existing_hashes sha entries [] = .ok hs ∧
      ∀ e ∈ entries, e.is_file = true → path_suffix e.name ∈ scan_extensions →
        sha e.content ∈ hs := by
  obtain ⟨hs, hseed, _, hmem⟩ := seed_ok_of_readable sha entries [] h
  exact ⟨hs, hseed, hmem⟩

/-- C9 witness: a readable `b.png` is fingerprinted during seeding. -/
theorem C9_witness :
    ∃ hs, seed_existing_hashes test_sha [⟨"b.png", true, true, [6]⟩] [] =
        .ok hs ∧
      ∀ e ∈ [(⟨"b.png", true, true, [6]⟩ : DirEntry)], e.is_file = true →
        path_suffix e.name ∈ scan_extensions → test_sha e.content ∈ hs :=
  C9_amended_seed test_sha [⟨"b.png", true, true, [6]⟩] (by decide)

/-- C10: for URL path `/%%%` (final segment non-empty, every character
outside the allowed set) with content type `image/png` (guessable
extension), the sanitized filename is empty, the final path collapses to
the output directory (with a trailing separator, as `os.path.join` with an
empty second component produces), and the staged body is written to
`os.path.join(output_dir, ".tmp")` — observable here because the
subsequent rename onto the directory path fails and the staged file
remains. -/
theorem C10_empty_sanitized_filename :
    derive_filename test_md5 "u" "/%%%" (some "image/png") = "" ∧
    final_path test_md5 "u" "/%%%" "out" (some "image/png") = "out/" ∧
    os_path_join "out" ".tmp" = "out/.tmp" ∧
    assoc_get (fetch_and_save_image test_sha test_md5 "u" "/%%%" "out"
      (.ok ⟨200, some "image/png", none, [9]⟩) ⟨["out"], []⟩ []).disk.files
      "out/.tmp" = some [9] :=
  ⟨rfl, rfl, rfl, rfl⟩

/-- C1 counterexample: the store is seeded with the fingerprint of the
pre-existing `out/a.png` (contents `[1]`); fetching different bytes `[2]`
whose derived filename is also `a.png` renames the staged file over it.
After this accept, the old fingerprint is still in the store but no file
on disk has it, refuting the claim's clause that a stored fingerprint
never stops referring to an on-disk file as a consequence of a later
accept. -/
theorem C1_counterexample :
    test_sha [1] ∈ (fetch_and_save_image test_sha test_md5 "u" "/a.png" "out"
      (.ok ⟨200, some "image/png", none, [2]⟩) ⟨["out"], [("out/a.png", [1])]⟩
      [test_sha [1]]).hashes ∧
    ∀ pc ∈ (fetch_and_save_image test_sha test_md5 "u" "/a.png" "out"
      (.ok ⟨200, some "image/png", none, [2]⟩) ⟨["out"], [("out/a.png", [1])]⟩
      [test_sha [1]]).disk.files, test_sha pc.2 ≠ test_sha [1] :=
  ⟨by decide, by decide⟩

/-- C1 amended: every fingerprint newly added by a call is added on the
accept path only, and at the end of that call the stored image at the
final path has exactly that fingerprint; no fingerprint is ever added for
a staged file that was deleted.  (The dropped clause: a later accept can
overwrite a pre-existing stored image, after which an older stored
fingerprint may no longer refer to any on-disk file.) -/
theorem C1_amended_new_fingerprint_on_disk (sha : List Nat → String)
    (md5 : String → String) (url up dir : String) (net : Except PyExc Response)
    (d : Disk) (hs : List String) (h : String)
    (hmem : h ∈ (fetch_and_save_image sha md5 url up dir net d hs).hashes)
    (hnew : h ∉ hs) :
    ∃ fn fp c,
      (fetch_and_save_image sha md5 url up dir net d hs).outcome =
        Outcome.success fn fp ∧
      assoc_get (fetch_and_save_image sha md5 url up dir net d hs).disk.files fp =
        some c ∧
      sha c = h := by
  cases net with
  | error e => exact absurd hmem hnew
  | ok r =>
    rcases run_ok_cases sha md5 url up dir r d hs with
      ⟨_, hA⟩ | ⟨_, hA⟩ | ⟨_, hA⟩ | ⟨_, _, _, _, hA⟩ | ⟨_, _, _, _, _, hA⟩ |
      ⟨_, _, _, _, _, _, hA⟩ | ⟨_, _, _, _, _, _, hA⟩
    · rw [hA] at hmem; exact absurd hmem hnew
    · rw [hA] at hmem; exact absurd hmem hnew
    · rw [hA] at hmem; exact absurd hmem hnew
    · rw [hA] at hmem; exact absurd hmem hnew
    · rw [hA] at hmem; exact absurd hmem hnew
    · rw [hA] at hmem; exact absurd hmem hnew
    · rw [hA] at hmem
      rcases (mem_set_add hs (sha r.content) h).mp hmem with hin | heq
      · exact absurd hin hnew
      · refine ⟨derive_filename md5 url up r.contentType,
          final_path md5 url up dir r.contentType, r.content, ?_, ?_, heq.symm⟩
        · rw [hA]
        · rw [hA]
          exact assoc_get_set_self _ _ _

/-- C1 witness: a fresh accept stores the new fingerprint and the file
carrying it. -/
theorem C1_witness :
    ∃ fn fp c,
      (fetch_and_save_image test_sha test_md5 "u" "/a.png" "out"
        (.ok ⟨200, some "image/png", none, [3]⟩) ⟨["out"], []⟩ []).outcome =
        Outcome.success fn fp ∧
      assoc_get (fetch_and_save_image test_sha test_md5 "u" "/a.png" "out"
        (.ok ⟨200, some "image/png", none, [3]⟩) ⟨["out"], []⟩ []).disk.files
        fp = some c ∧
      test_sha c = test_sha [3] :=
  C1_amended_new_fingerprint_on_disk test_sha test_md5 "u" "/a.png" "out"
    (.ok ⟨200, some "image/png", none, [3]⟩) ⟨["out"], []⟩ [] (test_sha [3])
    (by decide) (by decide)

/-- C2 counterexample: with URL path `/%%%` every character of the final
segment is stripped, the final path is the output directory itself, and
the accept rename fails (`IsADirectoryError`), which the outer handler
converts to an UnexpectedError outcome — but nothing deletes the staged
file, so `out/.tmp` remains on disk after the call returns. -/
theorem C2_counterexample :
    (fetch_and_save_image test_sha test_md5 "u" "/%%%" "out"
      (.ok ⟨200, some "image/png", none, [7]⟩) ⟨["out"], []⟩ []).outcome =
      Outcome.unexpectedError "IsADirectoryError" ∧
    staged_path test_md5 "u" "/%%%" "out" (some "image/png") = "out/.tmp" ∧
    assoc_get (fetch_and_save_image test_sha test_md5 "u" "/%%%" "out"
      (.ok ⟨200, some "image/png", none, [7]⟩) ⟨["out"], []⟩ []).disk.files
      "out/.tmp" = some [7] :=
  ⟨rfl, rfl, rfl⟩

/-- C2 amended: a transport-error call touches no file, and a call on a
completed response leaves no staged file behind provided the final path
does not refer to a directory (equivalently, the rename step cannot fail):
on fetch/validation rejections nothing is staged, on the duplicate path the
staged file is deleted, and on the accept path it is renamed away.  When
the rename fails — e.g. the sanitized filename is empty, so the final path
is the output directory — the staged `.tmp` file remains (see the
counterexample). -/
theorem C2_amended_no_staged_file_remains (sha : List Nat → String)
    (md5 : String → String) (url up dir : String) :
    (∀ (e : PyExc) (d : Disk) (hs : List String),
      (fetch_and_save_image sha md5 url up dir (.error e) d hs).disk = d) ∧
    (∀ (r : Response) (d : Disk) (hs : List String),
      assoc_get d.files (staged_path md5 url up dir r.contentType) = none →
      d.refers_to_dir (final_path md5 url up dir r.contentType) = false →
      assoc_get (fetch_and_save_image sha md5 url up dir (.ok r) d hs).disk.files
        (staged_path md5 url up dir r.contentType) = none) := by
  constructor
  · intro e d hs
    rfl
  · intro r d hs hstart hdirf
    rcases run_ok_cases sha md5 url up dir r d hs with
      ⟨_, hA⟩ | ⟨_, hA⟩ | ⟨_, hA⟩ | ⟨_, _, _, _, hA⟩ | ⟨_, _, _, _, _, hA⟩ |
      ⟨_, _, _, _, _, hrd, hA⟩ | ⟨_, _, _, _, _, _, hA⟩
    · rw [hA]; exact hstart
    · rw [hA]; exact hstart
    · rw [hA]; exact hstart
    · rw [hA]; exact hstart
    · rw [hA]
      exact assoc_get_del_self _ _
    · rw [hdirf] at hrd
      exact absurd hrd (by decide)
    · rw [hA]
      exact (assoc_get_set_ne _ _ _ _ (append_tmp_ne _)).trans
        (assoc_get_del_self _ _)

/-- C2 witness: an ordinary accept leaves no staged file. -/
theorem C2_witness :
    assoc_get (fetch_and_save_image test_sha test_md5 "u" "/a.png" "out"
      (.ok ⟨200, some "image/png", none, [3]⟩) ⟨["out"], []⟩ []).disk.files
      (staged_path test_md5 "u" "/a.png" "out" (some "image/png")) = none :=
  (C2_amended_no_staged_file_remains test_sha test_md5 "u" "/a.png" "out").2
    ⟨200, some "image/png", none, [3]⟩ ⟨["out"], []⟩ [] (by decide) (by decide)

end FetchImages

namespace FetchImages

/-- C4: if a call on response `r` produced `Success`, a second call on the
same response against the resulting state produces `DuplicateSkipped`: the
first call's fingerprint is found in the store, the staged copy is deleted,
the store is unchanged, and no path's contents change — no final file is
created or overwritten. -/
theorem C4_second_fetch_duplicate (sha : List Nat → String)
    (md5 : String → String) (url up dir : String) (r : Response) (d : Disk)
    (hs : List String) (fn fp : String) (d1 : Disk) (hs1 : List String)
    (h1 : fetch_and_save_image sha md5 url up dir (.ok r) d hs =
      ⟨Outcome.success fn fp, d1, hs1⟩) :
    (fetch_and_save_image sha md5 url up dir (.ok r) d1 hs1).outcome =
      Outcome.duplicateSkipped ∧
    (fetch_and_save_image sha md5 url up dir (.ok r) d1 hs1).hashes = hs1 ∧
    ∀ p, assoc_get
        (fetch_and_save_image sha md5 url up dir (.ok r) d1 hs1).disk.files p =
      assoc_get d1.files p := by
  rcases run_ok_cases sha md5 url up dir r d hs with
    ⟨_, hA⟩ | ⟨_, hA⟩ | ⟨_, hA⟩ | ⟨_, _, _, _, hA⟩ | ⟨_, _, _, _, _, hA⟩ |
    ⟨_, _, _, _, _, _, hA⟩ | ⟨hst, hct, hlen, hw, hnin, hrd, hA⟩
  · rw [hA] at h1; simp at h1
  · rw [hA] at h1; simp at h1
  · rw [hA] at h1; simp at h1
  · rw [hA] at h1; simp at h1
  · rw [hA] at h1; simp at h1
  · rw [hA] at h1; simp at h1
  · rw [hA] at h1
    injection h1 with ho hd hh
    have hfiles : d1.files =
        assoc_set
          (assoc_del (assoc_set d.files (staged_path md5 url up dir r.contentType)
            r.content) (staged_path md5 url up dir r.contentType))
          (final_path md5 url up dir r.contentType) r.content := by
      rw [← hd]
    have hw2 : d1.refers_to_dir (staged_path md5 url up dir r.contentType) =
        false := by
      rw [← hd]
      exact (refers_to_dir_files_irrel d _ _).trans hw
    have hdup2 : sha r.content ∈ hs1 := by
      rw [← hh]
      exact (mem_set_add hs (sha r.content) (sha r.content)).mpr (Or.inr rfl)
    have h2 := run_duplicate sha md5 url up dir r d1 hs1 hst hct hlen hw2 hdup2
    refine ⟨by rw [h2], by rw [h2], ?_⟩
    intro p
    rw [h2]
    by_cases hp : p = staged_path md5 url up dir r.contentType
    · subst hp
      refine (assoc_get_del_self _ _).trans ?_
      rw [hfiles]
      exact ((assoc_get_set_ne _ _ _ _ (append_tmp_ne _)).trans
        (assoc_get_del_self _ _)).symm
    · exact (assoc_get_del_ne _ _ _ hp).trans (assoc_get_set_ne _ _ _ _ hp)

/-- C4 witness: fetching the same bytes a second time in the state the
first success produced is decided as a duplicate. -/
theorem C4_witness :
    (fetch_and_save_image test_sha test_md5 "u" "/a.png" "out"
      (.ok ⟨200, some "image/png", none, [3]⟩)
      ⟨["out"], [("out/a.png", [3])]⟩ [test_sha [3]]).outcome =
      Outcome.duplicateSkipped :=
  (C4_second_fetch_duplicate test_sha test_md5 "u" "/a.png" "out"
    ⟨200, some "image/png", none, [3]⟩ ⟨["out"], []⟩ [] "a.png" "out/a.png"
    ⟨["out"], [("out/a.png", [3])]⟩ [test_sha [3]] (by decide)).1

/-- C5 counterexample: a successful run stores `photo.JPG`, whose literal
suffix `.JPG` is not in the startup scan set, so re-seeding from a
directory containing it yields an empty store and a re-fetch of the
identical bytes is accepted again instead of being decided a duplicate. -/
theorem C5_counterexample :
    (fetch_and_save_image test_sha test_md5 "u" "/a/b/photo.JPG" "out"
      (.ok ⟨200, some "image/jpeg", none, [5]⟩) ⟨["out"], []⟩ []).outcome =
      Outcome.success "photo.JPG" "out/photo.JPG" ∧
    path_suffix "photo.JPG" ∉ scan_extensions ∧
    seed_existing_hashes test_sha [⟨"photo.JPG", true, true, [5]⟩] [] =
      Except.ok [] ∧
    (fetch_and_save_image test_sha test_md5 "u" "/a/b/photo.JPG" "out"
      (.ok ⟨200, some "image/jpeg", none, [5]⟩)
      ⟨["out"], [("out/photo.JPG", [5])]⟩ []).outcome ≠
      Outcome.duplicateSkipped :=
  ⟨rfl, by decide, rfl, by decide⟩

/-- C5 amended: re-seeding recovers exactly the fingerprints of stored
files whose literal suffix is one of `.jpg .png .gif .bmp .webp`.  Every
synthesized filename has such a suffix, so for those images the startup
scan re-seeds the fingerprint and a re-fetch of identical bytes is again
decided a duplicate; filenames kept from the URL may carry other suffixes
(such as `.JPG` or `.jpeg`) and are then not re-seeded. -/
theorem C5_amended_reseed (sha : List Nat → String) :
    (∀ (md5 : String → String) (url up : String) (ct : Option String),
      validate_image_image_content_type ct = true →
      os_path_basename up = "" →
      (∀ c ∈ (md5 url).toList.take 8, c.isAlphanum = true) →
      path_suffix (derive_filename md5 url up ct) ∈ scan_extensions) ∧
    (∀ (entries : List DirEntry) (name : String) (b : List Nat),
      (∀ e ∈ entries, e.is_file = true → path_suffix e.name ∈ scan_extensions →
        e.readable = true) →
      DirEntry.mk name true true b ∈ entries →
      path_suffix name ∈ scan_extensions →
      ∃ hs, seed_existing_hashes sha entries [] = .ok hs ∧ sha b ∈ hs) ∧
    (∀ (md5 : String → String) (url up dir : String) (r : Response) (d : Disk)
      (hs : List String),
      ¬(400 ≤ r.status ∧ r.status < 600) →
      validate_image_image_content_type r.contentType = true →
      check_content_length r.contentLength = true →
      d.refers_to_dir (staged_path md5 url up dir r.contentType) = false →
      sha r.content ∈ hs →
      (fetch_and_save_image sha md5 url up dir (.ok r) d hs).outcome =
        Outcome.duplicateSkipped) := by
  refine ⟨?_, ?_, ?_⟩
  · intro md5 url up ct hval hbase hmd5
    have step : ∀ e : String, e ∈ scan_extensions →
        mimetypes_guess_extension (ct.getD "") = some e →
        path_suffix (derive_filename md5 url up ct) ∈ scan_extensions := by
      intro e he hguess
      rw [sanitize_synth md5 url up ct e hbase hguess he hmd5]
      rw [path_suffix_synth ((md5 url).toList.take 8) hmd5 e he]
      exact he
    rcases validate_cases ct hval with hc | hc | hc | hc | hc
    · exact step ".jpg" (by decide) (by simp [mimetypes_guess_extension, hc])
    · exact step ".png" (by decide) (by simp [mimetypes_guess_extension, hc])
    · exact step ".gif" (by decide) (by simp [mimetypes_guess_extension, hc])
    · exact step ".webp" (by decide) (by simp [mimetypes_guess_extension, hc])
    · exact step ".bmp" (by decide) (by simp [mimetypes_guess_extension, hc])
  · intro entries name b hreadable hmem hsuf
    obtain ⟨hs, hseed, _, hall⟩ := seed_ok_of_readable sha entries [] hreadable
    exact ⟨hs, hseed, hall ⟨name, true, true, b⟩ hmem rfl hsuf⟩
  · intro md5 url up dir r d hs hst hct hlen hw hdup
    rw [run_duplicate sha md5 url up dir r d hs hst hct hlen hw hdup]

/-- C5 witness: a synthesized `.png` filename is in the scan set, its
stored bytes are re-fingerprinted by seeding, and a re-fetch of the same
bytes against a store holding that fingerprint is decided a duplicate. -/
theorem C5_witness :
    path_suffix (derive_filename test_md5 "u" "/" (some "image/png")) ∈
      scan_extensions ∧
    (∃ hs, seed_existing_hashes test_sha
        [⟨"downloaded_image_0a1b2c3d.png", true, true, [4]⟩] [] = .ok hs ∧
      test_sha [4] ∈ hs) ∧
    (fetch_and_save_image test_sha test_md5 "u" "/" "out"
      (.ok ⟨200, some "image/png", none, [4]⟩) ⟨["out"], []⟩
      [test_sha [4]]).outcome = Outcome.duplicateSkipped :=
  ⟨(C5_amended_reseed test_sha).1 test_md5 "u" "/" (some "image/png")
      (by decide) (by decide) (by decide),
   (C5_amended_reseed test_sha).2.1
      [⟨"downloaded_image_0a1b2c3d.png", true, true, [4]⟩]
      "downloaded_image_0a1b2c3d.png" [4] (by decide) (by decide) (by decide),
   (C5_amended_reseed test_sha).2.2 test_md5 "u" "/" "out"
      ⟨200, some "image/png", none, [4]⟩ ⟨["out"], []⟩ [test_sha [4]]
      (by decide) (by decide) (by decide) (by decide) (by decide)⟩

end FetchImages
